import Mathlib

/-!
Verification development for the SOIL-TEMP temperature telemetry server
(`src/app.py`).  The core under scrutiny is the data-ingestion and
aggregation layer: `validate_temp`, `TemperatureDataManager.add_reading`,
`TemperatureDataManager._format_timestamp`, `TemperatureDataManager.
get_recent_readings`, `TemperatureDataManager.get_statistics`, the `submit`
route and the `get_debug_info` route.

Modelling conventions:
* Python float values are modelled as rationals (`ℚ`); `statistics.mean`
  already computes an exact mean internally, and `round(x, 2)` is modelled
  as exact round-half-to-even at two decimal digits (`pyRound2`).
* JSON numbers are split as Python's json module splits them: an integer
  literal decodes to an arbitrary-precision `int` (`JVal.jint`), any other
  numeric literal to a `float` (`JVal.jfloat`).  `float(int)` raises an
  uncaught-by-`validate_temp` `OverflowError` when the integer's magnitude
  reaches `floatOverflowBound`; `float(float)` is the identity and
  `float(str)` never raises `OverflowError` (an overlarge decimal string
  converts to an infinity, which the range check then rejects).
* Loosely typed JSON scalars are the inductive `JVal`; Python truthiness of
  a scalar is `truthy`.
* Database timestamps are modelled as `Nat` time points.  The source stores
  zero-padded "YYYY-MM-DD HH:MM:SS" strings, whose lexicographic SQL
  comparison agrees with chronological order, so a totally ordered `Nat`
  encoding is observationally faithful for the window queries.
* The SQLite table is a `List Row` in insertion order; `ORDER BY timestamp`
  is a stable sort on the timestamp.
* The shared in-process query cache (`self.cache`, a Python dict) is an
  association list from the key `(hours, limit)` (the source key string
  `"recent_{hours}_{limit}"` is injective in the pair) to the stored
  `(data, stored-at)` pair; dict assignment replaces the binding.
-/

/-- Python `round(x, 2)`: round to two decimal digits, ties to even
(banker's rounding), modelled exactly on rationals. -/
def pyRound2 (q : ℚ) : ℚ :=
  let s : ℚ := q * 100
  let f : ℤ := ⌊s⌋
  let frac : ℚ := s - (f : ℚ)
  let n : ℤ :=
    if frac < 1/2 then f
    else if 1/2 < frac then f + 1
    else if f % 2 = 0 then f else f + 1
  (n : ℚ) / 100

/-- A loosely typed JSON scalar as it arrives in the ingest payload.  A
JSON integer literal decodes to a Python `int` of arbitrary precision
(`jint`); any other numeric literal decodes to a `float` (`jfloat`). -/
inductive JVal where
  | jnull
  | jbool (b : Bool)
  | jint (n : ℤ)
  | jfloat (q : ℚ)
  | jstr (s : String)
deriving DecidableEq, Repr

/-- Python truthiness of a JSON scalar (`if x:`). -/
def truthy : JVal → Bool
  | JVal.jnull => false
  | JVal.jbool b => b
  | JVal.jint n => decide (n ≠ 0)
  | JVal.jfloat q => decide (q ≠ 0)
  | JVal.jstr s => decide (s ≠ "")

/-- The least integer magnitude at which `float(int)` raises
`OverflowError`: the literal value of `2^1024 - 2^970` (proved in
`floatOverflowBound_eq`).  The largest double is `2^1024 - 2^971`; an
integer of magnitude at least the midpoint `2^1024 - 2^970` rounds (ties
to even) to `2^1024`, which is not representable, so the conversion
raises.  Written as a literal so that kernel evaluation of comparisons
against it stays shallow. -/
def floatOverflowBound : ℤ :=
  179769313486231580793728971405303415079934132710037826936173778980444968292764750946649017977587207096330286416692887910946555547851940402630657488671505820681908902000708383676273854845817711531764475730270069855571366959622842914819860834936475292719074168444365510704342711559699508093042880177904174497792

theorem floatOverflowBound_eq : floatOverflowBound = 2 ^ 1024 - 2 ^ 970 := by
  unfold floatOverflowBound
  norm_num

/-- Split a character list at every occurrence of the separator `c`
(model of Python `str.split(c)` on the decoded characters). -/
def splitOnChar (c : Char) (l : List Char) : List (List Char) :=
  l.foldr
    (fun ch acc =>
      if ch = c then [] :: acc
      else
        match acc with
        | [] => [[ch]]
        | a :: as => (ch :: a) :: as)
    [[]]

/-- Numeric value of a digit string (0 on the empty list). -/
def digitsVal (cs : List Char) : Nat :=
  cs.foldl (fun n c => n * 10 + (c.toNat - 48)) 0

/-- Parse a non-empty all-digit character list as a natural number. -/
def digitsToNat (cs : List Char) : Option Nat :=
  if cs ≠ [] ∧ cs.all Char.isDigit then some (digitsVal cs) else none

/-- Parse an optionally signed integer (exponent part of a float literal). -/
def parseSignedInt (cs : List Char) : Option Int :=
  match cs with
  | '-' :: rest => (digitsToNat rest).map (fun n => -(n : ℤ))
  | '+' :: rest => (digitsToNat rest).map (fun n => (n : ℤ))
  | _ => (digitsToNat cs).map (fun n => (n : ℤ))

/-- Parse the mantissa of a Python float literal: `digits`, `digits.digits`,
`digits.` or `.digits`. -/
def parseMantissa (cs : List Char) : Option ℚ :=
  match splitOnChar '.' cs with
  | [i] => (digitsToNat i).map (fun n => (n : ℚ))
  | [i, f] =>
    if (i ≠ [] ∨ f ≠ []) ∧ i.all Char.isDigit ∧ f.all Char.isDigit then
      some ((digitsVal i : ℚ) + (digitsVal f : ℚ) / (10 : ℚ) ^ f.length)
    else none
  | _ => none

/-- Model of Python `float(s)` on a string: strip surrounding whitespace,
optional sign, decimal mantissa with optional `e`/`E` exponent.  (The
special spellings `inf`/`nan` are not produced here; through
`validate_temp` they are indistinguishable from a parse failure because an
infinite or NaN value never satisfies `-10 <= v <= 80`.) -/
def parsePyFloat (s : String) : Option ℚ :=
  let cs := ((s.data.dropWhile Char.isWhitespace).reverse.dropWhile
    Char.isWhitespace).reverse
  let signAndRest : Bool × List Char :=
    match cs with
    | '-' :: rest => (true, rest)
    | '+' :: rest => (false, rest)
    | _ => (false, cs)
  let neg := signAndRest.1
  match splitOnChar 'e' (signAndRest.2.map Char.toLower) with
  | [m] => (parseMantissa m).map (fun q => if neg then -q else q)
  | [m, ex] =>
    match parseMantissa m, parseSignedInt ex with
    | some qm, some en => some ((if neg then -qm else qm) * (10 : ℚ) ^ en)
    | _, _ => none
  | _ => none

/-- The outcome of Python `float(val)`: a float value, an exception that
`validate_temp`'s `except (TypeError, ValueError)` catches, or an
`OverflowError` that it does not catch. -/
inductive PyRes where
  | val (q : ℚ)
  | caughtErr
  | overflowErr
deriving DecidableEq, Repr

/-- Model of Python `float(val)` on a JSON scalar.  `float(None)` raises
`TypeError` and a non-numeric string raises `ValueError` (both caught by
`validate_temp`); `float(int)` raises an uncaught `OverflowError` when the
integer's magnitude reaches `floatOverflowBound`; `float` of a float is
the identity, and a decimal string never raises `OverflowError` (an
overlarge one converts to an infinity, here an exact huge rational, which
the range check rejects either way). -/
def pyFloat : JVal → PyRes
  | JVal.jnull => PyRes.caughtErr
  | JVal.jbool b => PyRes.val (if b then 1 else 0)
  | JVal.jint n =>
    if floatOverflowBound ≤ |n| then PyRes.overflowErr
    else PyRes.val (n : ℚ)
  | JVal.jfloat q => PyRes.val q
  | JVal.jstr s =>
    match parsePyFloat s with
    | some q => PyRes.val q
    | none => PyRes.caughtErr

/-- `validate_temp` (src/app.py lines 436-444): parse the raw value as a
float and accept it only when `-10 <= v <= 80`; a caught parse failure
(TypeError/ValueError) or an out-of-range value yields `None`; an
`OverflowError` from `float(int)` is not in the `except` list and
propagates to the caller. -/
def validate_temp (val : JVal) : Except String (Option ℚ) :=
  match pyFloat val with
  | PyRes.val v =>
    Except.ok (if -10 ≤ v ∧ v ≤ 80 then some v else none)
  | PyRes.caughtErr => Except.ok none
  | PyRes.overflowErr => Except.error ("OverflowError")

theorem pyFloat_smallint (n : ℤ) (h : |n| < floatOverflowBound) :
    pyFloat (JVal.jint n) = PyRes.val (n : ℚ) := by
  show (if floatOverflowBound ≤ |n| then PyRes.overflowErr
    else PyRes.val (n : ℚ)) = PyRes.val (n : ℚ)
  rw [if_neg (not_le.mpr h)]

theorem validate_temp_overflow (n : ℤ) (h : floatOverflowBound ≤ |n|) :
    validate_temp (JVal.jint n) = Except.error ("OverflowError") := by
  have h1 : pyFloat (JVal.jint n) = PyRes.overflowErr := by
    show (if floatOverflowBound ≤ |n| then PyRes.overflowErr
      else PyRes.val (n : ℚ)) = PyRes.overflowErr
    rw [if_pos h]
  unfold validate_temp
  rw [h1]

theorem ten_pow_400_overflow : floatOverflowBound ≤ |(10 : ℤ) ^ 400| := by
  rw [abs_of_nonneg (by positivity)]
  unfold floatOverflowBound
  norm_num

/-- Python `timestamp.replace('T', ' ')`: the pattern is a single
character, so the call replaces every `'T'` by a space. -/
def replaceTspace (s : String) : String :=
  String.mk (s.data.map (fun c => if c = 'T' then ' ' else c))

/-- Model of `datetime.fromisoformat` on the device format
`YYYY-MM-DD[ HH:MM:SS]`, returning a chronologically ordered `Nat`
encoding of the time point (field-range checks included; sub-second
precision of the library grammar is out of scope for the claims, which
only depend on parse success versus failure). -/
def parseIsoTimestamp (s : String) : Option Nat :=
  let encode (yn mon dan hn minn sen : Nat) : Nat :=
    ((((yn * 12 + (mon - 1)) * 31 + (dan - 1)) * 24 + hn) * 60 + minn) * 60
      + sen
  let parseDate (d : List Char) : Option (Nat × Nat × Nat) :=
    match splitOnChar '-' d with
    | [y, mo, da] =>
      match digitsToNat y, digitsToNat mo, digitsToNat da with
      | some yn, some mon, some dan =>
        if 1 ≤ mon ∧ mon ≤ 12 ∧ 1 ≤ dan ∧ dan ≤ 31 then some (yn, mon, dan)
        else none
      | _, _, _ => none
    | _ => none
  match splitOnChar ' ' s.data with
  | [d] => (parseDate d).map (fun p => encode p.1 p.2.1 p.2.2 0 0 0)
  | [d, t] =>
    match parseDate d, splitOnChar ':' t with
    | some p, [h, mi, se] =>
      match digitsToNat h, digitsToNat mi, digitsToNat se with
      | some hn, some minn, some sen =>
        if hn ≤ 23 ∧ minn ≤ 59 ∧ sen ≤ 59 then
          some (encode p.1 p.2.1 p.2.2 hn minn sen)
        else none
      | _, _, _ => none
    | _, _ => none
  | _ => none

/-- `TemperatureDataManager._format_timestamp` (src/app.py lines 187-196):
a falsy value or the literal string "null" falls back to the server's
current time; a string is parsed after replacing `'T'` by a space, and any
parse failure (the bare `except Exception`, which also catches the
`AttributeError` of `.replace` on a non-string truthy value) falls back to
the server's current time. -/
def format_timestamp (now : Nat) (timestamp : JVal) : Nat :=
  if truthy timestamp = false ∨ timestamp = JVal.jstr ("null") then now
  else
    match timestamp with
    | JVal.jstr s =>
      match parseIsoTimestamp (replaceTspace s) with
      | some t => t
      | none => now
    | _ => now

/-- An optional debug-metadata bundle: the decoded JSON object under the
payload's "debug" key (a Python dict, modelled as an association list with
unique keys; `dict.get` is `List.lookup`). -/
abbrev DebugDict := List (String × JVal)

/-- The raw value of the payload's "debug" key: either a JSON object or a
scalar (absent fields arrive as `null`). -/
inductive DebugVal where
  | scalar (v : JVal)
  | dict (d : DebugDict)
deriving DecidableEq, Repr

/-- How `add_reading` treats the raw debug value before touching it with
`.get`: a dict is used as the bundle; `None` (and any falsy scalar, since
every extraction is guarded by `... if debug_data else None`) behaves as an
absent bundle; a truthy non-dict raises `AttributeError` at the first
`.get`, which propagates to `submit`'s `except` handler. -/
def toDebugDict : DebugVal → Except String (Option DebugDict)
  | DebugVal.dict d => Except.ok (some d)
  | DebugVal.scalar v =>
    if truthy v then Except.error ("AttributeError") else Except.ok (some [])

/-- One boolean operational flag, as extracted in `add_reading`
(src/app.py lines 165-169): `debug_data.get(key) == 'true' if debug_data
else None`.  Note that an empty dict is falsy in Python, so an empty bundle
yields `None` exactly like an absent one. -/
def extractFlag (debug : Option DebugDict) (key : String) : Option Bool :=
  match debug with
  | none => none
  | some d =>
    if d.isEmpty then none
    else some (decide (d.lookup key = some (JVal.jstr ("true"))))

/-- One non-boolean debug column, as extracted in `add_reading`
(src/app.py lines 159-164): `debug_data.get(key) if debug_data else None`;
`dict.get` defaults to `None` for a missing key. -/
def debugGet (debug : Option DebugDict) (key : String) : JVal :=
  match debug with
  | none => JVal.jnull
  | some d => if d.isEmpty then JVal.jnull else (d.lookup key).getD JVal.jnull

/-- One stored reading: a row of the `temperature_readings` table.  The
last flag column is named `unsafe_wake` in the source schema; it is
renamed `abnormal_wake` here only because the source spelling is not
usable as a Lean field name. -/
structure Row where
  timestamp : Nat
  t1 : Option ℚ
  t2 : Option ℚ
  t3 : Option ℚ
  battery : JVal
  battery_status : JVal
  wake_cause : JVal
  wake_cause_name : JVal
  reset_reason : JVal
  reset_reason_name : JVal
  boot_count : JVal
  last_boot_count : JVal
  probe_mode_completed : Option Bool
  should_run_probe : Option Bool
  probe_done_this_cycle : Option Bool
  rtc_sleep_armed : Option Bool
  abnormal_wake : Option Bool
deriving DecidableEq, Repr

/-- The row INSERTed by `add_reading` (src/app.py lines 158-180). -/
def mkRow (now : Nat) (t1 t2 t3 : Option ℚ) (battery battery_status : JVal)
    (ts : JVal) (dd : Option DebugDict) : Row :=
  { timestamp := format_timestamp now ts
    t1 := t1
    t2 := t2
    t3 := t3
    battery := battery
    battery_status := battery_status
    wake_cause := debugGet dd ("wake_cause")
    wake_cause_name := debugGet dd ("wake_cause_name")
    reset_reason := debugGet dd ("reset_reason")
    reset_reason_name := debugGet dd ("reset_reason_name")
    boot_count := debugGet dd ("boot_count")
    last_boot_count := debugGet dd ("last_boot_count")
    probe_mode_completed := extractFlag dd ("probe_mode_completed")
    should_run_probe := extractFlag dd ("should_run_probe")
    probe_done_this_cycle := extractFlag dd ("probe_done_this_cycle")
    rtc_sleep_armed := extractFlag dd ("rtc_sleep_armed")
    abnormal_wake := extractFlag dd ("unsafe_wake") }

/-- One element of the `get_recent_readings` result list (the projected
columns; the derived `'time'` display string is presentation only). -/
structure RecentEntry where
  ts : Nat
  t1 : Option ℚ
  t2 : Option ℚ
  t3 : Option ℚ
  battery : JVal
  battery_status : JVal
deriving DecidableEq, Repr

/-- Projection of a row to a recent-readings result element. -/
def toEntry (r : Row) : RecentEntry :=
  { ts := r.timestamp
    t1 := r.t1
    t2 := r.t2
    t3 := r.t3
    battery := r.battery
    battery_status := r.battery_status }

/-- One value of the query cache: the cached result list together with the
`time.time()` at which it was stored. -/
structure CacheEntry where
  data : List RecentEntry
  storedAt : Nat
deriving DecidableEq, Repr

/-- The manager's mutable state: the durable table plus the in-process
query cache (keyed by `(hours, limit)`). -/
structure State where
  store : List Row
  cache : List ((Nat × Nat) × CacheEntry)
deriving DecidableEq, Repr

/-- Python dict assignment `self.cache[key] = value`: replace any existing
binding for the key. -/
def cacheInsert (k : Nat × Nat) (v : CacheEntry)
    (c : List ((Nat × Nat) × CacheEntry)) : List ((Nat × Nat) × CacheEntry) :=
  (k, v) :: c.filter (fun p => decide (p.1 ≠ k))

/-- `ORDER BY timestamp ASC` comparison. -/
def tsLe (a b : Row) : Prop := a.timestamp ≤ b.timestamp

/-- `ORDER BY timestamp DESC` comparison. -/
def tsGe (a b : Row) : Prop := b.timestamp ≤ a.timestamp

instance : DecidableRel tsLe := fun a b => Nat.decLe a.timestamp b.timestamp

instance : DecidableRel tsGe := fun a b => Nat.decLe b.timestamp a.timestamp

instance : IsTotal Row tsLe := ⟨fun a b => Nat.le_total a.timestamp b.timestamp⟩

instance : IsTrans Row tsLe := ⟨fun _ _ _ h h' => Nat.le_trans h h'⟩

instance : IsTotal Row tsGe := ⟨fun a b => Nat.le_total b.timestamp a.timestamp⟩

instance : IsTrans Row tsGe := ⟨fun _ _ _ h h' => Nat.le_trans h' h⟩

/-- `WHERE timestamp >= cutoff`: the rows of the window, in table order. -/
def windowRows (store : List Row) (cutoff : Nat) : List Row :=
  store.filter (fun r => decide (cutoff ≤ r.timestamp))

/-- The statistics query (src/app.py lines 244-249): window rows in
ascending timestamp order (stable with respect to insertion order). -/
def sortedWindow (store : List Row) (cutoff : Nat) : List Row :=
  List.insertionSort tsLe (windowRows store cutoff)

/-- The recent-readings query (src/app.py lines 212-218): window rows in
descending timestamp order, capped at `limit`, projected to the selected
columns. -/
def query_recent (store : List Row) (cutoff limit : Nat) : List RecentEntry :=
  (((windowRows store cutoff).insertionSort tsGe).take limit).map toEntry

/-- `TemperatureDataManager.get_recent_readings` (src/app.py lines
198-236): serve from the cache when the entry is younger than the 60s
TTL, otherwise recompute from the store and cache the result under the
key `(hours, limit)`.  `now` plays both clock roles (`time.time()` for
the TTL and `datetime.now()` for the cutoff `now - hours*3600`). -/
def get_recent_readings (hours limit now : Nat) (st : State) :
    List RecentEntry × State :=
  let key := (hours, limit)
  let cutoff := now - hours * 3600
  match st.cache.lookup key with
  | some e =>
    if now - e.storedAt < 60 then (e.data, st)
    else
      let data := query_recent st.store cutoff limit
      (data, { store := st.store, cache := cacheInsert key ⟨data, now⟩ st.cache })
  | none =>
    let data := query_recent st.store cutoff limit
    (data, { store := st.store, cache := cacheInsert key ⟨data, now⟩ st.cache })

/-- The three sensors. -/
inductive Sensor where
  | t1
  | t2
  | t3
deriving DecidableEq, Repr

/-- Column selection `row[0] if sensor == 't1' else row[1] if sensor ==
't2' else row[2]`. -/
def sensorSel : Sensor → Row → Option ℚ
  | Sensor.t1, r => r.t1
  | Sensor.t2, r => r.t2
  | Sensor.t3, r => r.t3

/-- First-stage filter of the statistics loop: `row[0] is not None or
row[1] is not None or row[2] is not None`. -/
def anyTempPresent (r : Row) : Bool :=
  r.t1.isSome || r.t2.isSome || r.t3.isSome

/-- The `values` list of `get_statistics` (src/app.py lines 259-263):
select the sensor's column over rows having any non-null temperature,
then drop the `None`s. -/
def sensorValues (data : List Row) (s : Sensor) : List ℚ :=
  ((data.filter anyTempPresent).map (sensorSel s)).reduceOption

/-- One sensor's statistics snapshot.  `minTime`/`maxTime` are the
timestamps found by the linear `next(...)` scans (`none` would mean the
scan found no matching row, which is provably impossible). -/
structure SensorStats where
  minVal : ℚ
  minTime : Option Nat
  maxVal : ℚ
  maxTime : Option Nat
  avg : ℚ
  current : ℚ
deriving DecidableEq, Repr

/-- The per-sensor body of `get_statistics` (src/app.py lines 258-281). -/
def sensorStats (data : List Row) (s : Sensor) : Option SensorStats :=
  match sensorValues data s with
  | [] => none
  | v :: vs =>
    let min_val := vs.foldl min v
    let max_val := vs.foldl max v
    let avg_val := (v :: vs).sum / ((v :: vs).length : ℚ)
    some
      { minVal := min_val
        minTime :=
          (data.find? (fun r => decide (sensorSel s r = some min_val))).map
            Row.timestamp
        maxVal := max_val
        maxTime :=
          (data.find? (fun r => decide (sensorSel s r = some max_val))).map
            Row.timestamp
        avg := pyRound2 avg_val
        current := (v :: vs).getLast (List.cons_ne_nil v vs) }

/-- `TemperatureDataManager.get_statistics` (src/app.py lines 238-283):
fetch the ascending window, return `None` for every sensor when it is
empty, otherwise the per-sensor snapshot (also `None` for a sensor with no
non-null value). -/
def get_statistics (store : List Row) (cutoff : Nat) (s : Sensor) :
    Option SensorStats :=
  let data := sortedWindow store cutoff
  if data.isEmpty then none else sensorStats data s

/-- The manager-level statistics call, with the state made explicit: the
method reads the store and — unlike `get_recent_readings` — never touches
`self.cache`. -/
def get_statistics_m (hours now : Nat) (st : State) :
    (Sensor → Option SensorStats) × State :=
  (get_statistics st.store (now - hours * 3600), st)

/-- The state-mutating steps of `add_reading` (src/app.py lines 171-184),
in source order: execute the INSERT, `conn.commit()`, `conn.close()`,
`self.cache.clear()`. -/
inductive AddOp where
  | insertRow
  | commitTx
  | closeConn
  | clearCache
deriving DecidableEq, Repr

/-- The steps of `add_reading` in the order the source performs them. -/
def addOps : List AddOp := [AddOp.insertRow, AddOp.commitTx, AddOp.closeConn,
  AddOp.clearCache]

/-- The state visible during `add_reading`: the durably committed table,
the uncommitted inserts of the open transaction, and the query cache. -/
structure ConnState where
  committed : List Row
  pending : List Row
  cache : List ((Nat × Nat) × CacheEntry)
deriving DecidableEq, Repr

/-- Effect of one `add_reading` step. -/
def applyOp (row : Row) (s : ConnState) : AddOp → ConnState
  | AddOp.insertRow => { s with pending := s.pending ++ [row] }
  | AddOp.commitTx =>
    { s with committed := s.committed ++ s.pending, pending := [] }
  | AddOp.closeConn => { s with pending := [] }
  | AddOp.clearCache => { s with cache := [] }

/-- Run `add_reading`'s steps.  `failAt = some k` means the k-th step (0 =
INSERT, 1 = commit) raises, so only the steps before it execute and the
exception propagates to the caller; in either case the connection is
eventually closed, which rolls back any uncommitted insert. -/
def runAdd (row : Row) (failAt : Option Nat) (s : ConnState) : ConnState :=
  let executed := match failAt with
    | none => addOps
    | some k => addOps.take k
  let s1 := executed.foldl (applyOp row) s
  { s1 with pending := [] }

/-- `TemperatureDataManager.add_reading` (src/app.py lines 153-184):
extract the debug fields (which raises on a truthy non-dict bundle before
any INSERT), build the row, then INSERT / commit / close / clear the
cache.  Returns the new state together with the raised exception message,
if any (`none` = the call returned normally). -/
def add_reading (t1 t2 t3 : Option ℚ) (battery battery_status : JVal)
    (ts : JVal) (debug : DebugVal) (now : Nat) (failAt : Option Nat)
    (st : State) : State × Option String :=
  match toDebugDict debug with
  | Except.error e => (st, some e)
  | Except.ok dd =>
    let row := mkRow now t1 t2 t3 battery battery_status ts dd
    let cs := runAdd row failAt ⟨st.store, [], st.cache⟩
    (⟨cs.committed, cs.cache⟩,
      if failAt.isNone then none else some ("database is locked"))

/-- The columns projected by the `/api/debug` query (src/app.py lines
375-384). -/
structure DebugInfo where
  wake_cause : JVal
  wake_cause_name : JVal
  reset_reason : JVal
  reset_reason_name : JVal
  boot_count : JVal
  last_boot_count : JVal
  probe_mode_completed : Option Bool
  should_run_probe : Option Bool
  probe_done_this_cycle : Option Bool
  rtc_sleep_armed : Option Bool
  abnormal_wake : Option Bool
  battery : JVal
  battery_status : JVal
deriving DecidableEq, Repr

/-- Projection of a row to the `/api/debug` columns. -/
def projDebug (r : Row) : DebugInfo :=
  { wake_cause := r.wake_cause
    wake_cause_name := r.wake_cause_name
    reset_reason := r.reset_reason
    reset_reason_name := r.reset_reason_name
    boot_count := r.boot_count
    last_boot_count := r.last_boot_count
    probe_mode_completed := r.probe_mode_completed
    should_run_probe := r.should_run_probe
    probe_done_this_cycle := r.probe_done_this_cycle
    rtc_sleep_armed := r.rtc_sleep_armed
    abnormal_wake := r.abnormal_wake
    battery := r.battery
    battery_status := r.battery_status }

/-- The `get_debug_info` route (src/app.py lines 366-409): `SELECT ...
WHERE wake_cause IS NOT NULL ORDER BY timestamp DESC LIMIT 1`; `none`
models the 404 "No debug data available" response. -/
def get_debug_info (store : List Row) : Option DebugInfo :=
  ((List.insertionSort tsGe
    (store.filter (fun r => decide (r.wake_cause ≠ JVal.jnull)))).head?).map
    projDebug

/-- The reference computation of the claims: the non-null values of one
sensor among the readings whose timestamp lies in the window, in table
order. -/
def refValues (store : List Row) (cutoff : Nat) (s : Sensor) : List ℚ :=
  (windowRows store cutoff).filterMap (sensorSel s)

theorem anyTempPresent_false_sel {r : Row} (h : anyTempPresent r = false)
    (s : Sensor) : sensorSel s r = none := by
  have hnone : ∀ o : Option ℚ, o.isSome = false → o = none := by
    intro o ho
    cases o
    · rfl
    · simp at ho
  simp only [anyTempPresent, Bool.or_eq_false_iff] at h
  obtain ⟨⟨h1, h2⟩, h3⟩ := h
  cases s
  · exact hnone _ h1
  · exact hnone _ h2
  · exact hnone _ h3

theorem sensorValues_eq_filterMap (data : List Row) (s : Sensor) :
    sensorValues data s = data.filterMap (sensorSel s) := by
  induction data with
  | nil => rfl
  | cons r rs ih =>
    unfold sensorValues at ih ⊢
    cases hp : anyTempPresent r
    · rw [List.filter_cons, if_neg (by simp [hp]), List.filterMap_cons,
        anyTempPresent_false_sel hp s, ih]
    · rw [List.filter_cons, if_pos (by simp [hp]), List.map_cons,
        List.filterMap_cons]
      cases hsel : sensorSel s r with
      | none => rw [List.reduceOption_cons_of_none, ih]
      | some v => rw [List.reduceOption_cons_of_some, ih]

theorem sensorValues_sortedWindow_perm (store : List Row) (cutoff : Nat)
    (s : Sensor) :
    (sensorValues (sortedWindow store cutoff) s).Perm
      (refValues store cutoff s) := by
  rw [sensorValues_eq_filterMap]
  exact (List.perm_insertionSort tsLe (windowRows store cutoff)).filterMap
    (sensorSel s)

theorem foldl_min_mem (vs : List ℚ) (v : ℚ) : vs.foldl min v ∈ v :: vs := by
  induction vs generalizing v with
  | nil => simp
  | cons a as ih =>
    rw [List.foldl_cons]
    rcases List.mem_cons.mp (ih (min v a)) with h1 | h1
    · rcases min_choice v a with hm | hm
      · exact List.mem_cons.mpr (Or.inl (h1.trans hm))
      · exact List.mem_cons.mpr (Or.inr (List.mem_cons.mpr
          (Or.inl (h1.trans hm))))
    · exact List.mem_cons.mpr (Or.inr (List.mem_cons.mpr (Or.inr h1)))

theorem foldl_min_le (vs : List ℚ) (v : ℚ) :
    ∀ x ∈ v :: vs, vs.foldl min v ≤ x := by
  induction vs generalizing v with
  | nil => intro x hx; rw [List.mem_singleton] at hx; subst hx; simp
  | cons a as ih =>
    intro x hx
    rw [List.foldl_cons]
    have hbase : as.foldl min (min v a) ≤ min v a :=
      ih (min v a) (min v a) (List.mem_cons_self _ _)
    rcases List.mem_cons.mp hx with rfl | hx1
    · exact le_trans hbase (min_le_left _ _)
    · rcases List.mem_cons.mp hx1 with rfl | hx2
      · exact le_trans hbase (min_le_right _ _)
      · exact ih (min v a) x (List.mem_cons_of_mem _ hx2)

theorem foldl_max_mem (vs : List ℚ) (v : ℚ) : vs.foldl max v ∈ v :: vs := by
  induction vs generalizing v with
  | nil => simp
  | cons a as ih =>
    rw [List.foldl_cons]
    rcases List.mem_cons.mp (ih (max v a)) with h1 | h1
    · rcases max_choice v a with hm | hm
      · exact List.mem_cons.mpr (Or.inl (h1.trans hm))
      · exact List.mem_cons.mpr (Or.inr (List.mem_cons.mpr
          (Or.inl (h1.trans hm))))
    · exact List.mem_cons.mpr (Or.inr (List.mem_cons.mpr (Or.inr h1)))

theorem foldl_max_ge (vs : List ℚ) (v : ℚ) :
    ∀ x ∈ v :: vs, x ≤ vs.foldl max v := by
  induction vs generalizing v with
  | nil => intro x hx; rw [List.mem_singleton] at hx; subst hx; simp
  | cons a as ih =>
    intro x hx
    rw [List.foldl_cons]
    have hbase : max v a ≤ as.foldl max (max v a) :=
      ih (max v a) (max v a) (List.mem_cons_self _ _)
    rcases List.mem_cons.mp hx with rfl | hx1
    · exact le_trans (le_max_left _ _) hbase
    · rcases List.mem_cons.mp hx1 with rfl | hx2
      · exact le_trans (le_max_right _ _) hbase
      · exact ih (max v a) x (List.mem_cons_of_mem _ hx2)

theorem find?_first {α : Type} (p : α → Bool) :
    ∀ (l : List α) (a : α), l.find? p = some a →
      ∃ i, ∃ hi : i < l.length, l.get ⟨i, hi⟩ = a ∧ p a = true ∧
        ∀ j (hj : j < l.length), j < i → p (l.get ⟨j, hj⟩) = false := by
  intro l
  induction l with
  | nil => intro a h; simp [List.find?] at h
  | cons b bs ih =>
    intro a h
    by_cases hb : p b = true
    · rw [List.find?_cons_of_pos bs hb] at h
      obtain rfl : b = a := by injection h
      exact ⟨0, by simp, rfl, hb, fun j hj hji => absurd hji (Nat.not_lt_zero j)⟩
    · rw [List.find?_cons_of_neg bs hb] at h
      obtain ⟨i, hi, hget, hpa, hmin⟩ := ih a h
      refine ⟨i + 1, Nat.succ_lt_succ hi, hget, hpa, ?_⟩
      intro j hj hji
      cases j with
      | zero => exact Bool.not_eq_true _ ▸ (by simpa using hb)
      | succ j' =>
        have hj' : j' < bs.length := Nat.lt_of_succ_lt_succ hj
        have := hmin j' hj' (Nat.lt_of_succ_lt_succ hji)
        simpa using this

/-- A demo reading used to exercise the theorems on concrete inputs. -/
def demoRow1 : Row :=
  { timestamp := 1
    t1 := some 20
    t2 := none
    t3 := none
    battery := JVal.jfloat 4
    battery_status := JVal.jnull
    wake_cause := JVal.jint 1
    wake_cause_name := JVal.jstr ("timer")
    reset_reason := JVal.jint 3
    reset_reason_name := JVal.jnull
    boot_count := JVal.jint 7
    last_boot_count := JVal.jint 6
    probe_mode_completed := some true
    should_run_probe := some false
    probe_done_this_cycle := some false
    rtc_sleep_armed := some true
    abnormal_wake := some false }

/-- A later demo reading with no debug bundle. -/
def demoRow2 : Row :=
  { timestamp := 2
    t1 := some 60
    t2 := some 30
    t3 := none
    battery := JVal.jnull
    battery_status := JVal.jnull
    wake_cause := JVal.jnull
    wake_cause_name := JVal.jnull
    reset_reason := JVal.jnull
    reset_reason_name := JVal.jnull
    boot_count := JVal.jnull
    last_boot_count := JVal.jnull
    probe_mode_completed := none
    should_run_probe := none
    probe_done_this_cycle := none
    rtc_sleep_armed := none
    abnormal_wake := none }

/-- Two-reading demo store (the spec's min/max/current scenario). -/
def demoStore : List Row := [demoRow1, demoRow2]

/-- A demo state whose cache holds one previously computed entry. -/
def demoCachedState : State :=
  { store := [demoRow1]
    cache := [((24, 1000), { data := [toEntry demoRow1], storedAt := 10 })] }

/-- Claim C3 counterexample: at the integer input `10^400` the program's
`float(int)` raises `OverflowError`, which `except (TypeError,
ValueError)` does not catch, so `validate_temp` raises instead of
returning absent — refuting "it never raises an error". -/
theorem validate_temp_overflow_counterexample :
    validate_temp (JVal.jint (10 ^ 400)) = Except.error ("OverflowError")
  ∧ validate_temp (JVal.jint (10 ^ 400)) ≠ Except.ok none := by
  have h1 := validate_temp_overflow ((10 : ℤ) ^ 400) ten_pow_400_overflow
  refine ⟨h1, ?_⟩
  rw [h1]
  simp

/-- Claim C3 amended: `validateTemperature(v)` returns `v` exactly when
`float(v)` yields a value and `-10 <= v <= 80`; a caught parse failure
(TypeError/ValueError) or an out-of-range value yields absent; but for an
integer whose magnitude reaches the float conversion bound, `float()`
raises `OverflowError`, which the except clause does not catch, so the
call raises instead of returning absent. -/
theorem validate_temp_spec (val : JVal) (v : ℚ) :
    (validate_temp val = Except.ok (some v) ↔
      pyFloat val = PyRes.val v ∧ -10 ≤ v ∧ v ≤ 80)
  ∧ (pyFloat val = PyRes.caughtErr → validate_temp val = Except.ok none)
  ∧ (∀ w, pyFloat val = PyRes.val w → ¬(-10 ≤ w ∧ w ≤ 80) →
      validate_temp val = Except.ok none)
  ∧ (validate_temp val = Except.error ("OverflowError") ↔
      pyFloat val = PyRes.overflowErr)
  ∧ (∀ n, val = JVal.jint n → floatOverflowBound ≤ |n| →
      validate_temp val = Except.error ("OverflowError")) := by
  have c5 : ∀ n, val = JVal.jint n → floatOverflowBound ≤ |n| →
      validate_temp val = Except.error ("OverflowError") := by
    intro n hval hb
    rw [hval]
    exact validate_temp_overflow n hb
  cases h : pyFloat val with
  | val w =>
    have hv : validate_temp val =
        Except.ok (if -10 ≤ w ∧ w ≤ 80 then some w else none) := by
      unfold validate_temp
      rw [h]
    by_cases hr : -10 ≤ w ∧ w ≤ 80
    · rw [if_pos hr] at hv
      refine ⟨⟨?_, ?_⟩, ?_, ?_, ⟨?_, ?_⟩, c5⟩
      · intro h1
        rw [hv] at h1
        have h2 : some w = some v := by injection h1
        obtain rfl : w = v := by injection h2
        exact ⟨rfl, hr⟩
      · intro ⟨h1, h2⟩
        obtain rfl : w = v := by injection h1
        exact hv
      · intro hc
        exact absurd hc (by simp)
      · intro w2 hw2 hc
        obtain rfl : w = w2 := by injection hw2
        exact absurd hr hc
      · intro hc
        rw [hv] at hc
        exact absurd hc (by simp)
      · intro hc
        exact absurd hc (by simp)
    · rw [if_neg hr] at hv
      refine ⟨⟨?_, ?_⟩, ?_, ?_, ⟨?_, ?_⟩, c5⟩
      · intro h1
        rw [hv] at h1
        have h2 : (none : Option ℚ) = some v := by injection h1
        exact absurd h2 (by simp)
      · intro ⟨h1, h2⟩
        obtain rfl : w = v := by injection h1
        exact absurd h2 hr
      · intro hc
        exact absurd hc (by simp)
      · intro w2 hw2 hc
        exact hv
      · intro hc
        rw [hv] at hc
        exact absurd hc (by simp)
      · intro hc
        exact absurd hc (by simp)
  | caughtErr =>
    have hv : validate_temp val = Except.ok none := by
      unfold validate_temp
      rw [h]
    refine ⟨⟨?_, ?_⟩, fun _ => hv, fun _ _ _ => hv, ⟨?_, ?_⟩, c5⟩
    · intro h1
      rw [hv] at h1
      have h2 : (none : Option ℚ) = some v := by injection h1
      exact absurd h2 (by simp)
    · intro ⟨h1, _⟩
      exact absurd h1 (by simp)
    · intro hc
      rw [hv] at hc
      exact absurd hc (by simp)
    · intro hc
      exact absurd hc (by simp)
  | overflowErr =>
    have hv : validate_temp val = Except.error ("OverflowError") := by
      unfold validate_temp
      rw [h]
    refine ⟨⟨?_, ?_⟩, ?_, ?_, ⟨fun _ => rfl, fun _ => hv⟩, c5⟩
    · intro h1
      rw [hv] at h1
      exact absurd h1 (by simp)
    · intro ⟨h1, _⟩
      exact absurd h1 (by simp)
    · intro hc
      exact absurd hc (by simp)
    · intro w2 hw2 hc
      exact absurd hw2 (by simp)

/-- Witness for the amended C3 at concrete inputs: the integer 25 is
accepted as-is, 95 is rejected to absent. -/
theorem validate_temp_spec_witness :
    pyFloat (JVal.jint 25) = PyRes.val 25 ∧ (-10 : ℚ) ≤ 25 ∧ (25 : ℚ) ≤ 80
  ∧ validate_temp (JVal.jint 25) = Except.ok (some 25)
  ∧ validate_temp (JVal.jint 95) = Except.ok none := by
  have h25 : pyFloat (JVal.jint 25) = PyRes.val 25 := by
    rw [pyFloat_smallint 25 (by decide)]
    exact congrArg PyRes.val (by norm_num)
  have h95 : pyFloat (JVal.jint 95) = PyRes.val 95 := by
    rw [pyFloat_smallint 95 (by decide)]
    exact congrArg PyRes.val (by norm_num)
  refine ⟨h25, by norm_num, by norm_num, ?_, ?_⟩
  · exact (validate_temp_spec (JVal.jint 25) 25).1.mpr
      ⟨h25, by norm_num, by norm_num⟩
  · exact (validate_temp_spec (JVal.jint 95) 0).2.2.1 95 h95
      (fun hc => absurd hc.2 (by norm_num))

/-- Claim C6: `normalizeTimestamp` returns the server's current time for a
missing/null/unparsable input and the parsed timestamp otherwise (with
`'T'`/space separator tolerance); the result is always one of the two, so
a malformed timestamp never surfaces as an error. -/
theorem format_timestamp_spec (now : Nat) (ts : JVal) :
    (format_timestamp now ts = now ∨
      ∃ s t, ts = JVal.jstr s ∧
        parseIsoTimestamp (replaceTspace s) = some t ∧
        format_timestamp now ts = t)
  ∧ (ts = JVal.jnull → format_timestamp now ts = now)
  ∧ (ts = JVal.jstr ("") → format_timestamp now ts = now)
  ∧ (ts = JVal.jstr ("null") → format_timestamp now ts = now)
  ∧ ((∀ s, ts ≠ JVal.jstr s) → format_timestamp now ts = now)
  ∧ (∀ s, ts = JVal.jstr s → parseIsoTimestamp (replaceTspace s) = none →
      format_timestamp now ts = now)
  ∧ (∀ s t, ts = JVal.jstr s → parseIsoTimestamp (replaceTspace s) = some t →
      format_timestamp now ts = t) := by
  cases ts with
  | jnull =>
    have hv : format_timestamp now JVal.jnull = now := by
      unfold format_timestamp
      split
      · rfl
      · rfl
    exact ⟨Or.inl hv, fun _ => hv, fun _ => hv, fun _ => hv, fun _ => hv,
      fun _ _ _ => hv, fun s t hs _ => absurd hs (by simp)⟩
  | jbool b =>
    have hv : format_timestamp now (JVal.jbool b) = now := by
      unfold format_timestamp
      split
      · rfl
      · rfl
    exact ⟨Or.inl hv, fun _ => hv, fun _ => hv, fun _ => hv, fun _ => hv,
      fun _ _ _ => hv, fun s t hs _ => absurd hs (by simp)⟩
  | jint n =>
    have hv : format_timestamp now (JVal.jint n) = now := by
      unfold format_timestamp
      split
      · rfl
      · rfl
    exact ⟨Or.inl hv, fun _ => hv, fun _ => hv, fun _ => hv, fun _ => hv,
      fun _ _ _ => hv, fun s t hs _ => absurd hs (by simp)⟩
  | jfloat q =>
    have hv : format_timestamp now (JVal.jfloat q) = now := by
      unfold format_timestamp
      split
      · rfl
      · rfl
    exact ⟨Or.inl hv, fun _ => hv, fun _ => hv, fun _ => hv, fun _ => hv,
      fun _ _ _ => hv, fun s t hs _ => absurd hs (by simp)⟩
  | jstr s =>
    by_cases hnil : s = ""
    · subst hnil
      have hv : format_timestamp now (JVal.jstr ("")) = now := by
        unfold format_timestamp
        rw [if_pos (Or.inl (by simp [truthy]))]
      refine ⟨Or.inl hv, fun _ => hv, fun _ => hv, fun _ => hv, fun _ => hv,
        fun _ _ _ => hv, ?_⟩
      intro s' t hs hpt
      obtain rfl : "" = s' := by injection hs
      rw [show parseIsoTimestamp (replaceTspace ("")) = none from by decide]
        at hpt
      exact absurd hpt (by simp)
    · by_cases hnull : s = "null"
      · subst hnull
        have hv : format_timestamp now (JVal.jstr ("null")) = now := by
          unfold format_timestamp
          rw [if_pos (Or.inr rfl)]
        refine ⟨Or.inl hv, fun _ => hv, fun _ => hv, fun _ => hv, fun _ => hv,
          fun _ _ _ => hv, ?_⟩
        intro s' t hs hpt
        obtain rfl : "null" = s' := by injection hs
        rw [show parseIsoTimestamp (replaceTspace ("null")) = none from by
          decide] at hpt
        exact absurd hpt (by simp)
      · have htr : ¬(truthy (JVal.jstr s) = false ∨
            JVal.jstr s = JVal.jstr ("null")) := by
          simp [truthy, hnil, hnull]
        have hbody : format_timestamp now (JVal.jstr s) =
            (match parseIsoTimestamp (replaceTspace s) with
              | some t => t
              | none => now) := by
          unfold format_timestamp
          rw [if_neg htr]
        cases hp : parseIsoTimestamp (replaceTspace s) with
        | none =>
          have hv : format_timestamp now (JVal.jstr s) = now := by
            rw [hbody, hp]
          refine ⟨Or.inl hv, fun _ => hv, fun _ => hv, fun _ => hv,
            fun _ => hv, fun _ _ _ => hv, ?_⟩
          intro s' t hs hpt
          obtain rfl : s = s' := by injection hs
          rw [hp] at hpt
          exact absurd hpt (by simp)
        | some t =>
          have hv : format_timestamp now (JVal.jstr s) = t := by
            rw [hbody, hp]
          refine ⟨Or.inr ⟨s, t, rfl, hp, hv⟩, ?_, ?_, ?_, ?_, ?_, ?_⟩
          · intro h
            exact absurd h (by simp)
          · intro h
            obtain rfl : s = "" := by injection h
            exact absurd rfl hnil
          · intro h
            obtain rfl : s = "null" := by injection h
            exact absurd rfl hnull
          · intro h
            exact absurd rfl (h s)
          · intro s' hs hpn
            obtain rfl : s = s' := by injection hs
            rw [hp] at hpn
            exact absurd hpn (by simp)
          · intro s' t' hs hpt
            obtain rfl : s = s' := by injection hs
            rw [hp] at hpt
            obtain rfl : t = t' := by injection hpt
            exact hv

/-- Witness for C6: a concrete device timestamp with the `'T'` separator
parses, and a null input falls back to the server time. -/
theorem format_timestamp_spec_witness :
    parseIsoTimestamp (replaceTspace ("2025-09-11T17:25:05"))
        = some 65107473905
  ∧ format_timestamp 777 (JVal.jstr ("2025-09-11T17:25:05")) = 65107473905
  ∧ format_timestamp 777 JVal.jnull = 777 :=
  ⟨by decide,
    (format_timestamp_spec 777 (JVal.jstr ("2025-09-11T17:25:05"))).2.2.2.2.2.2
      ("2025-09-11T17:25:05") 65107473905 rfl (by decide),
    (format_timestamp_spec 777 JVal.jnull).2.1 rfl⟩

/-- A demo state with one reading and an empty cache. -/
def demoState : State := { store := [demoRow1], cache := [] }

theorem lookup_cacheInsert (k : Nat × Nat) (v : CacheEntry)
    (c : List ((Nat × Nat) × CacheEntry)) :
    (cacheInsert k v c).lookup k = some v := by
  simp [cacheInsert, List.lookup]

/-- Claim C5 counterexample: the statistics query path never stores its
result in the query cache.  Starting from an empty cache, a statistics
call leaves the whole state (in particular the cache) unchanged, so a
repeated call recomputes from the store instead of being served from the
cache. -/
theorem statistics_cache_counterexample :
    (get_statistics_m 24 100000 demoState).2.cache = []
  ∧ (get_statistics_m 24 100000 demoState).2 = demoState
  ∧ (get_statistics_m 24 100000
      (get_statistics_m 24 100000 demoState).2).2.cache = [] :=
  ⟨rfl, rfl, rfl⟩

/-- Claim C5 amended: only the recent-readings query path uses the query
cache — it is checked first and on a miss the computed result is stored
before being returned, so a repeated recent-readings call for the same
`(window, limit)` within the TTL is served from the cache; the statistics
path recomputes from the store on every call and neither reads nor writes
the cache. -/
theorem recent_path_caches_statistics_path_does_not :
    (∀ hours now (st : State), get_statistics_m hours now st =
      (get_statistics st.store (now - hours * 3600), st))
  ∧ (∀ hours limit now now2 (st : State),
      st.cache.lookup (hours, limit) = none → now2 - now < 60 →
      get_recent_readings hours limit now2
          ((get_recent_readings hours limit now st).2)
        = ((get_recent_readings hours limit now st).1,
          (get_recent_readings hours limit now st).2)) := by
  constructor
  · intro hours now st
    rfl
  · intro hours limit now now2 st hnone httl
    have h1 : get_recent_readings hours limit now st =
        (query_recent st.store (now - hours * 3600) limit,
          { store := st.store,
            cache := cacheInsert (hours, limit)
              ⟨query_recent st.store (now - hours * 3600) limit, now⟩
              st.cache }) := by
      simp only [get_recent_readings]
      rw [hnone]
    rw [h1]
    simp only [get_recent_readings]
    rw [lookup_cacheInsert]
    simp only [if_pos httl]

/-- Witness for the amended C5: a concrete miss at time 0 followed by a
repeat at time 30 is served from the cache. -/
theorem recent_path_caches_witness :
    demoState.cache.lookup (24, 1000) = none ∧ (30 : Nat) - 0 < 60
  ∧ get_recent_readings 24 1000 30 ((get_recent_readings 24 1000 0
        demoState).2)
      = ((get_recent_readings 24 1000 0 demoState).1,
        (get_recent_readings 24 1000 0 demoState).2) :=
  ⟨rfl, by decide,
    recent_path_caches_statistics_path_does_not.2 24 1000 0 30 demoState rfl
      (by decide)⟩

/-- The row built by `add_reading` from a present-but-empty debug
bundle. -/
def emptyDebugRow : Row :=
  mkRow 0 (some 25) none none JVal.jnull JVal.jnull JVal.jnull (some [])

/-- Claim C7 counterexample: an empty debug dict is falsy in Python, so
with a present-but-empty bundle every flag field (whose raw value is
absent) is stored as `None`, not `false`, although the bundle itself is
not absent. -/
theorem flags_empty_bundle_counterexample :
    emptyDebugRow.abnormal_wake = none
  ∧ emptyDebugRow.abnormal_wake ≠ some false
  ∧ emptyDebugRow.probe_mode_completed = none := by
  refine ⟨rfl, ?_, rfl⟩
  decide

/-- Claim C7 amended: a flag is stored as `true` iff its raw value is the
literal string "true"; any other raw value (including "false" or an absent
field) yields `false` when the bundle is a non-empty dict; when the bundle
is absent or empty every flag is absent.  The five flag columns of the
inserted row are exactly these extractions. -/
theorem flags_literal_true_spec (d : DebugDict) (key : String) :
    (extractFlag (some d) key = some true ↔
      d ≠ [] ∧ d.lookup key = some (JVal.jstr ("true")))
  ∧ (d ≠ [] → d.lookup key ≠ some (JVal.jstr ("true")) →
      extractFlag (some d) key = some false)
  ∧ extractFlag none key = none
  ∧ extractFlag (some ([] : DebugDict)) key = none
  ∧ (∀ now t1 t2 t3 b bs ts,
      (mkRow now t1 t2 t3 b bs ts (some d)).probe_mode_completed
        = extractFlag (some d) ("probe_mode_completed")
      ∧ (mkRow now t1 t2 t3 b bs ts (some d)).should_run_probe
        = extractFlag (some d) ("should_run_probe")
      ∧ (mkRow now t1 t2 t3 b bs ts (some d)).probe_done_this_cycle
        = extractFlag (some d) ("probe_done_this_cycle")
      ∧ (mkRow now t1 t2 t3 b bs ts (some d)).rtc_sleep_armed
        = extractFlag (some d) ("rtc_sleep_armed")
      ∧ (mkRow now t1 t2 t3 b bs ts (some d)).abnormal_wake
        = extractFlag (some d) ("unsafe_wake")) := by
  have hv : extractFlag (some d) key =
      if d.isEmpty then none
      else some (decide (d.lookup key = some (JVal.jstr ("true")))) := rfl
  refine ⟨⟨?_, ?_⟩, ?_, rfl, rfl, ?_⟩
  · intro h1
    rw [hv] at h1
    by_cases hd : d.isEmpty
    · rw [if_pos hd] at h1
      exact absurd h1 (by simp)
    · rw [if_neg hd] at h1
      have hb : decide (d.lookup key = some (JVal.jstr ("true"))) = true := by
        injection h1
      exact ⟨fun hnil => hd (by rw [hnil]; rfl), of_decide_eq_true hb⟩
  · intro ⟨hne, hlk⟩
    rw [hv, if_neg (fun hd => hne (List.isEmpty_iff.mp hd)), hlk]
    simp
  · intro hne hlk
    rw [hv, if_neg (fun hd => hne (List.isEmpty_iff.mp hd))]
    simp [hlk]
  · intro now t1 t2 t3 b bs ts
    exact ⟨rfl, rfl, rfl, rfl, rfl⟩

/-- A demo debug bundle: one flag literally "true", one literally
"false". -/
def demoDebugDict : DebugDict :=
  [(("unsafe_wake" : String), JVal.jstr ("true")),
   (("rtc_sleep_armed" : String), JVal.jstr ("false"))]

/-- Witness for the amended C7 on a concrete bundle. -/
theorem flags_literal_true_witness :
    demoDebugDict ≠ []
  ∧ extractFlag (some demoDebugDict) ("unsafe_wake") = some true
  ∧ demoDebugDict.lookup ("rtc_sleep_armed") ≠ some (JVal.jstr ("true"))
  ∧ extractFlag (some demoDebugDict) ("rtc_sleep_armed") = some false :=
  ⟨by decide,
    (flags_literal_true_spec demoDebugDict ("unsafe_wake")).1.mpr
      ⟨by decide, by decide⟩,
    by decide,
    (flags_literal_true_spec demoDebugDict ("rtc_sleep_armed")).2.1
      (by decide) (by decide)⟩

/-- Claim C9 counterexample: in `demoStore` the most recent reading
(timestamp 2) has a NULL `wake_cause`; the route returns the older
reading's bundle, not the bundle of the reading with the greatest
timestamp. -/
theorem latest_debug_counterexample :
    get_debug_info demoStore = some (projDebug demoRow1)
  ∧ demoRow2 ∈ demoStore
  ∧ (∀ r ∈ demoStore, r.timestamp ≤ demoRow2.timestamp)
  ∧ demoRow1.timestamp ≠ demoRow2.timestamp
  ∧ get_debug_info demoStore ≠ some (projDebug demoRow2) := by
  decide

/-- Claim C9 amended: `latestDiagnostics` returns the bundle of the most
recent stored reading whose `wake_cause` is non-null, and the no-data
signal exactly when no stored reading has a non-null `wake_cause`. -/
theorem latest_debug_nonnull_spec (store : List Row) :
    ((∀ r ∈ store, r.wake_cause = JVal.jnull) → get_debug_info store = none)
  ∧ (∀ d, get_debug_info store = some d →
      ∃ r, r ∈ store ∧ r.wake_cause ≠ JVal.jnull ∧ d = projDebug r ∧
        ∀ r2, r2 ∈ store → r2.wake_cause ≠ JVal.jnull →
          r2.timestamp ≤ r.timestamp) := by
  constructor
  · intro hall
    have hfil : store.filter (fun r => decide (r.wake_cause ≠ JVal.jnull))
        = [] := by
      rw [List.filter_eq_nil_iff]
      intro a ha
      simp [hall a ha]
    unfold get_debug_info
    rw [hfil]
    rfl
  · intro d hd
    unfold get_debug_info at hd
    cases hL : List.insertionSort tsGe
        (store.filter (fun r => decide (r.wake_cause ≠ JVal.jnull))) with
    | nil =>
      rw [hL] at hd
      exact absurd hd (by simp)
    | cons r0 tl =>
      rw [hL] at hd
      obtain rfl : projDebug r0 = d := by injection hd
      have hr0f : r0 ∈ store.filter
          (fun r => decide (r.wake_cause ≠ JVal.jnull)) := by
        rw [← List.mem_insertionSort tsGe, hL]
        exact List.mem_cons_self r0 tl
      obtain ⟨hr0s, hr0w⟩ := List.mem_filter.mp hr0f
      have hsort : List.Sorted tsGe (r0 :: tl) := by
        rw [← hL]
        exact List.sorted_insertionSort tsGe _
      refine ⟨r0, hr0s, of_decide_eq_true hr0w, rfl, ?_⟩
      intro r2 hr2s hr2w
      have hr2f : r2 ∈ store.filter
          (fun r => decide (r.wake_cause ≠ JVal.jnull)) :=
        List.mem_filter.mpr ⟨hr2s, decide_eq_true hr2w⟩
      rw [← List.mem_insertionSort tsGe, hL] at hr2f
      rcases List.mem_cons.mp hr2f with rfl | hr2tl
      · exact Nat.le_refl _
      · exact List.rel_of_sorted_cons hsort r2 hr2tl

/-- Witness for the amended C9 on the demo store. -/
theorem latest_debug_nonnull_witness :
    get_debug_info demoStore = some (projDebug demoRow1)
  ∧ ∃ r, r ∈ demoStore ∧ r.wake_cause ≠ JVal.jnull ∧
      projDebug demoRow1 = projDebug r ∧
      ∀ r2, r2 ∈ demoStore → r2.wake_cause ≠ JVal.jnull →
        r2.timestamp ≤ r.timestamp :=
  ⟨by decide,
    (latest_debug_nonnull_spec demoStore).2 (projDebug demoRow1) (by decide)⟩

/-- A demo state whose cache holds one previously computed entry, used to
show cache preservation on a failed append. -/
def demoCachedState2 : State :=
  { store := [demoRow1]
    cache := [((24, 1000), { data := [toEntry demoRow1], storedAt := 10 })] }

/-- Claim C10: if the insert or the commit raises before the commit
completes (step 0 = INSERT, step 1 = commit), the whole state — committed
store and query cache — is unchanged, the exception is reported, and the
cache-clearing step is never reached. -/
theorem failed_append_preserves_state (t1 t2 t3 : Option ℚ)
    (battery battery_status ts : JVal) (debug : DebugVal) (now k : Nat)
    (st : State) (hk : k ≤ 1) :
    (add_reading t1 t2 t3 battery battery_status ts debug now (some k) st).1
      = st
  ∧ (add_reading t1 t2 t3 battery battery_status ts debug now (some k) st).2
      ≠ none := by
  cases hdd : toDebugDict debug with
  | error e =>
    have hv : add_reading t1 t2 t3 battery battery_status ts debug now
        (some k) st = (st, some e) := by
      unfold add_reading
      rw [hdd]
    rw [hv]
    exact ⟨rfl, by simp⟩
  | ok dd =>
    interval_cases k
    · constructor
      · show (add_reading t1 t2 t3 battery battery_status ts debug now
          (some 0) st).1 = st
        unfold add_reading
        rw [hdd]
        rfl
      · show (add_reading t1 t2 t3 battery battery_status ts debug now
          (some 0) st).2 ≠ none
        unfold add_reading
        rw [hdd]
        simp
    · constructor
      · show (add_reading t1 t2 t3 battery battery_status ts debug now
          (some 1) st).1 = st
        unfold add_reading
        rw [hdd]
        rfl
      · show (add_reading t1 t2 t3 battery battery_status ts debug now
          (some 1) st).2 ≠ none
        unfold add_reading
        rw [hdd]
        simp

/-- Witness for C10: a commit failure (step 1) on a concrete state with a
non-empty cache leaves the state, cache included, untouched. -/
theorem failed_append_preserves_state_witness :
    (1 : Nat) ≤ 1
  ∧ (add_reading (some 25) none none JVal.jnull JVal.jnull JVal.jnull
      (DebugVal.scalar JVal.jnull) 0 (some 1) demoCachedState2).1
      = demoCachedState2 :=
  ⟨by decide,
    (failed_append_preserves_state (some 25) none none JVal.jnull JVal.jnull
      JVal.jnull (DebugVal.scalar JVal.jnull) 0 1 demoCachedState2
      (by decide)).1⟩

/-- Claim C2: a fully successful `add_reading` commits exactly the new row
and clears the whole query cache before returning, so every subsequent
recent-readings or statistics call, for any window and at any time (in
particular within the TTL of a previously cached entry), is computed fresh
from the store that contains the new row; when the window covers the new
row and the limit does not truncate, the new row appears in the
recent-readings result. -/
theorem append_invalidates_cache (t1 t2 t3 : Option ℚ)
    (battery battery_status ts : JVal) (debug : DebugVal) (now : Nat)
    (st : State) (dd : Option DebugDict)
    (hdd : toDebugDict debug = Except.ok dd) :
    (add_reading t1 t2 t3 battery battery_status ts debug now none st).2
      = none
  ∧ (add_reading t1 t2 t3 battery battery_status ts debug now none st).1.cache
      = []
  ∧ (add_reading t1 t2 t3 battery battery_status ts debug now none st).1.store
      = st.store ++ [mkRow now t1 t2 t3 battery battery_status ts dd]
  ∧ (∀ hours limit qnow,
      (get_recent_readings hours limit qnow
        (add_reading t1 t2 t3 battery battery_status ts debug now none
          st).1).1
      = query_recent
          (st.store ++ [mkRow now t1 t2 t3 battery battery_status ts dd])
          (qnow - hours * 3600) limit)
  ∧ (∀ hours qnow s,
      (get_statistics_m hours qnow
        (add_reading t1 t2 t3 battery battery_status ts debug now none
          st).1).1 s
      = get_statistics
          (st.store ++ [mkRow now t1 t2 t3 battery battery_status ts dd])
          (qnow - hours * 3600) s)
  ∧ (∀ hours limit qnow,
      qnow - hours * 3600 ≤
        (mkRow now t1 t2 t3 battery battery_status ts dd).timestamp →
      (windowRows
        (st.store ++ [mkRow now t1 t2 t3 battery battery_status ts dd])
        (qnow - hours * 3600)).length ≤ limit →
      toEntry (mkRow now t1 t2 t3 battery battery_status ts dd) ∈
        (get_recent_readings hours limit qnow
          (add_reading t1 t2 t3 battery battery_status ts debug now none
            st).1).1) := by
  have hadd : add_reading t1 t2 t3 battery battery_status ts debug now none st
      = ({ store := st.store ++ [mkRow now t1 t2 t3 battery battery_status ts
            dd], cache := [] }, none) := by
    unfold add_reading
    rw [hdd]
    rfl
  refine ⟨by rw [hadd], by rw [hadd], by rw [hadd], ?_, ?_, ?_⟩
  · intro hours limit qnow
    rw [hadd]
    rfl
  · intro hours qnow s
    rw [hadd]
    rfl
  · intro hours limit qnow hts hlen
    rw [hadd]
    show toEntry (mkRow now t1 t2 t3 battery battery_status ts dd) ∈
      query_recent
        (st.store ++ [mkRow now t1 t2 t3 battery battery_status ts dd])
        (qnow - hours * 3600) limit
    unfold query_recent
    have hperm := List.perm_insertionSort tsGe (windowRows
      (st.store ++ [mkRow now t1 t2 t3 battery battery_status ts dd])
      (qnow - hours * 3600))
    rw [List.take_of_length_le (by rw [hperm.length_eq]; exact hlen)]
    apply List.mem_map_of_mem
    rw [List.mem_insertionSort]
    exact List.mem_filter.mpr
      ⟨List.mem_append_right _ (List.mem_singleton_self _),
        decide_eq_true hts⟩

/-- Witness for C2: a concrete successful append on a state holding a
fresh cached entry clears the cache. -/
theorem append_invalidates_cache_witness :
    toDebugDict (DebugVal.scalar JVal.jnull) = Except.ok (some [])
  ∧ (add_reading (some 25) none none JVal.jnull JVal.jnull JVal.jnull
      (DebugVal.scalar JVal.jnull) 7 none demoCachedState2).1.cache = [] :=
  ⟨rfl,
    (append_invalidates_cache (some 25) none none JVal.jnull JVal.jnull
      JVal.jnull (DebugVal.scalar JVal.jnull) 7 demoCachedState2 (some [])
      rfl).2.1⟩

/-- Claim C1: for every sensor, the statistics minimum/maximum/mean agree
with the direct reference computation over exactly the non-null values of
that sensor among in-window readings; a sensor with zero non-null values
in the window has an absent snapshot. -/
theorem statistics_matches_reference (store : List Row) (cutoff : Nat)
    (s : Sensor) :
    (refValues store cutoff s = [] → get_statistics store cutoff s = none)
  ∧ (refValues store cutoff s ≠ [] →
      ∃ st2, get_statistics store cutoff s = some st2
        ∧ st2.minVal ∈ refValues store cutoff s
        ∧ (∀ v ∈ refValues store cutoff s, st2.minVal ≤ v)
        ∧ st2.maxVal ∈ refValues store cutoff s
        ∧ (∀ v ∈ refValues store cutoff s, v ≤ st2.maxVal)
        ∧ st2.avg = pyRound2 ((refValues store cutoff s).sum /
            ((refValues store cutoff s).length : ℚ))) := by
  have hperm := sensorValues_sortedWindow_perm store cutoff s
  constructor
  · intro hnil
    have hval : sensorValues (sortedWindow store cutoff) s = [] := by
      rw [hnil] at hperm
      exact hperm.eq_nil
    unfold get_statistics
    by_cases hd : (sortedWindow store cutoff).isEmpty
    · rw [if_pos hd]
    · rw [if_neg hd]
      unfold sensorStats
      rw [hval]
  · intro hne
    obtain ⟨v, vs, hval⟩ : ∃ v vs,
        sensorValues (sortedWindow store cutoff) s = v :: vs := by
      cases hv0 : sensorValues (sortedWindow store cutoff) s with
      | nil =>
        rw [hv0] at hperm
        exact absurd hperm.symm.eq_nil hne
      | cons a as => exact ⟨a, as, rfl⟩
    have hdne : ¬ (sortedWindow store cutoff).isEmpty = true := by
      intro hd
      have hw : sortedWindow store cutoff = [] := List.isEmpty_iff.mp hd
      rw [hw] at hval
      exact absurd hval (by simp [sensorValues])
    have hstat : get_statistics store cutoff s =
        sensorStats (sortedWindow store cutoff) s := by
      unfold get_statistics
      rw [if_neg hdne]
    have hsens : sensorStats (sortedWindow store cutoff) s = some
        { minVal := vs.foldl min v
          minTime := ((sortedWindow store cutoff).find?
            (fun r => decide (sensorSel s r = some (vs.foldl min v)))).map
            Row.timestamp
          maxVal := vs.foldl max v
          maxTime := ((sortedWindow store cutoff).find?
            (fun r => decide (sensorSel s r = some (vs.foldl max v)))).map
            Row.timestamp
          avg := pyRound2 ((v :: vs).sum / ((v :: vs).length : ℚ))
          current := (v :: vs).getLast (List.cons_ne_nil v vs) } := by
      unfold sensorStats
      rw [hval]
    rw [hval] at hperm
    refine ⟨_, hstat.trans hsens, ?_, ?_, ?_, ?_, ?_⟩
    · exact hperm.mem_iff.mp (foldl_min_mem vs v)
    · intro x hx
      exact foldl_min_le vs v x (hperm.mem_iff.mpr hx)
    · exact hperm.mem_iff.mp (foldl_max_mem vs v)
    · intro x hx
      exact foldl_max_ge vs v x (hperm.mem_iff.mpr hx)
    · show pyRound2 ((v :: vs).sum / ((v :: vs).length : ℚ)) = _
      rw [hperm.sum_eq, hperm.length_eq]

/-- Witness for C1 on the demo store: sensor t1 has values 20 and 60 in
the window, so the snapshot exists; sensor t3 has no non-null value, so
its snapshot is absent. -/
theorem statistics_matches_reference_witness :
    refValues demoStore 0 Sensor.t1 ≠ []
  ∧ (∃ st2, get_statistics demoStore 0 Sensor.t1 = some st2)
  ∧ refValues demoStore 0 Sensor.t3 = []
  ∧ get_statistics demoStore 0 Sensor.t3 = none :=
  ⟨by decide,
    ((statistics_matches_reference demoStore 0 Sensor.t1).2
      (by decide)).elim (fun st2 h => ⟨st2, h.1⟩),
    by decide,
    (statistics_matches_reference demoStore 0 Sensor.t3).1 (by decide)⟩

theorem find_first_scan (data : List Row) (s : Sensor) (m : ℚ)
    (hsorted : List.Sorted tsLe data)
    (hm : ∃ r ∈ data, sensorSel s r = some m) :
    ∃ i, ∃ hi : i < data.length,
      sensorSel s (data.get ⟨i, hi⟩) = some m
      ∧ (data.find? (fun r => decide (sensorSel s r = some m))).map
          Row.timestamp = some (data.get ⟨i, hi⟩).timestamp
      ∧ (∀ j (hj : j < data.length), j < i →
          sensorSel s (data.get ⟨j, hj⟩) ≠ some m)
      ∧ (∀ j (hj : j < data.length),
          sensorSel s (data.get ⟨j, hj⟩) = some m →
          (data.get ⟨i, hi⟩).timestamp ≤ (data.get ⟨j, hj⟩).timestamp) := by
  have hsome : (data.find?
      (fun r => decide (sensorSel s r = some m))).isSome := by
    rw [List.find?_isSome]
    obtain ⟨r, hr, hsel⟩ := hm
    exact ⟨r, hr, decide_eq_true hsel⟩
  obtain ⟨a, ha⟩ := Option.isSome_iff_exists.mp hsome
  obtain ⟨i, hi, hget, hpa, hmin⟩ := find?_first _ data a ha
  refine ⟨i, hi, ?_, ?_, ?_, ?_⟩
  · rw [hget]
    exact of_decide_eq_true hpa
  · rw [ha, hget]
    rfl
  · intro j hj hji hc
    exact of_decide_eq_false (hmin j hj hji) hc
  · intro j hj hsel
    by_cases hji : j < i
    · exact absurd hsel (of_decide_eq_false (hmin j hj hji))
    · rcases Nat.lt_or_ge i j with hij | hij
      · exact hsorted.rel_get_of_lt
          (show (⟨i, hi⟩ : Fin data.length) < ⟨j, hj⟩ from hij)
      · obtain rfl : i = j := Nat.le_antisymm (Nat.le_of_not_lt hji) hij
        exact Nat.le_refl _

/-- Claim C8: for a sensor with a snapshot, the reported min (resp. max)
timestamp is the timestamp of the first row, in ascending chronological
scan order, whose sensor value equals the extreme — so it is the earliest
timestamp achieving the extreme (first occurrence wins on ties) — and
`current` is the chronologically last non-null sample of that sensor in
the window. -/
theorem statistics_extreme_first_occurrence (store : List Row) (cutoff : Nat)
    (s : Sensor) (st2 : SensorStats)
    (h : get_statistics store cutoff s = some st2) :
    (∃ i, ∃ hi : i < (sortedWindow store cutoff).length,
      sensorSel s ((sortedWindow store cutoff).get ⟨i, hi⟩) = some st2.minVal
      ∧ st2.minTime
          = some (((sortedWindow store cutoff).get ⟨i, hi⟩).timestamp)
      ∧ (∀ j (hj : j < (sortedWindow store cutoff).length), j < i →
          sensorSel s ((sortedWindow store cutoff).get ⟨j, hj⟩) ≠
            some st2.minVal)
      ∧ (∀ j (hj : j < (sortedWindow store cutoff).length),
          sensorSel s ((sortedWindow store cutoff).get ⟨j, hj⟩) =
            some st2.minVal →
          (((sortedWindow store cutoff).get ⟨i, hi⟩)).timestamp ≤
            (((sortedWindow store cutoff).get ⟨j, hj⟩)).timestamp))
  ∧ (∃ i, ∃ hi : i < (sortedWindow store cutoff).length,
      sensorSel s ((sortedWindow store cutoff).get ⟨i, hi⟩) = some st2.maxVal
      ∧ st2.maxTime
          = some (((sortedWindow store cutoff).get ⟨i, hi⟩).timestamp)
      ∧ (∀ j (hj : j < (sortedWindow store cutoff).length), j < i →
          sensorSel s ((sortedWindow store cutoff).get ⟨j, hj⟩) ≠
            some st2.maxVal)
      ∧ (∀ j (hj : j < (sortedWindow store cutoff).length),
          sensorSel s ((sortedWindow store cutoff).get ⟨j, hj⟩) =
            some st2.maxVal →
          (((sortedWindow store cutoff).get ⟨i, hi⟩)).timestamp ≤
            (((sortedWindow store cutoff).get ⟨j, hj⟩)).timestamp))
  ∧ ((sortedWindow store cutoff).filterMap (sensorSel s)).getLast?
      = some st2.current := by
  have hsorted : List.Sorted tsLe (sortedWindow store cutoff) :=
    List.sorted_insertionSort tsLe _
  by_cases hd : (sortedWindow store cutoff).isEmpty
  · unfold get_statistics at h
    rw [if_pos hd] at h
    exact absurd h (by simp)
  · unfold get_statistics at h
    rw [if_neg hd] at h
    cases hval : sensorValues (sortedWindow store cutoff) s with
    | nil =>
      unfold sensorStats at h
      rw [hval] at h
      exact absurd h (by simp)
    | cons v vs =>
      unfold sensorStats at h
      rw [hval] at h
      obtain rfl := Option.some.inj h
      have hmmem : vs.foldl min v ∈
          (sortedWindow store cutoff).filterMap (sensorSel s) := by
        rw [← sensorValues_eq_filterMap, hval]
        exact foldl_min_mem vs v
      have hxmem : vs.foldl max v ∈
          (sortedWindow store cutoff).filterMap (sensorSel s) := by
        rw [← sensorValues_eq_filterMap, hval]
        exact foldl_max_mem vs v
      refine ⟨?_, ?_, ?_⟩
      · obtain ⟨i, hi, h1, h2, h3, h4⟩ := find_first_scan
          (sortedWindow store cutoff) s (vs.foldl min v) hsorted
          (List.mem_filterMap.mp hmmem)
        exact ⟨i, hi, h1, h2, h3, h4⟩
      · obtain ⟨i, hi, h1, h2, h3, h4⟩ := find_first_scan
          (sortedWindow store cutoff) s (vs.foldl max v) hsorted
          (List.mem_filterMap.mp hxmem)
        exact ⟨i, hi, h1, h2, h3, h4⟩
      · rw [← sensorValues_eq_filterMap, hval]
        exact List.getLast?_eq_getLast (v :: vs) (List.cons_ne_nil v vs)

/-- The snapshot the demo store yields for sensor t1: min 20 at time 1,
max 60 at time 2, mean 40, current 60 (the spec's scenario). -/
def demoStats8 : SensorStats :=
  { minVal := 20
    minTime := some 1
    maxVal := 60
    maxTime := some 2
    avg := 40
    current := 60 }

theorem pyRound2_int (n : ℤ) : pyRound2 ((n : ℤ) : ℚ) = (n : ℚ) := by
  simp only [pyRound2]
  have hcast : ((n : ℚ) * 100) = ((n * 100 : ℤ) : ℚ) := by
    push_cast
    ring
  rw [hcast, Int.floor_intCast, sub_self]
  rw [if_pos (by norm_num)]
  push_cast
  ring

/-- Witness for C8 on the demo store. -/
theorem statistics_extreme_first_occurrence_witness :
    get_statistics demoStore 0 Sensor.t1 = some demoStats8
  ∧ ((sortedWindow demoStore 0).filterMap (sensorSel Sensor.t1)).getLast?
      = some demoStats8.current := by
  have hval : sensorValues (sortedWindow demoStore 0) Sensor.t1
      = [20, 60] := by decide
  have h8 : get_statistics demoStore 0 Sensor.t1 = some demoStats8 := by
    have hne : ¬ (sortedWindow demoStore 0).isEmpty = true := by decide
    unfold get_statistics
    rw [if_neg hne]
    unfold sensorStats
    rw [hval]
    refine congrArg some ?_
    unfold demoStats8
    simp only [SensorStats.mk.injEq]
    refine ⟨by decide, by decide, by decide, by decide, ?_, by decide⟩
    have hsum : (((20 : ℚ) :: [60]).sum / (((20 : ℚ) :: [60]).length : ℚ))
        = ((40 : ℤ) : ℚ) := by
      norm_num [List.sum_cons, List.sum_nil]
    rw [hsum, pyRound2_int]
    norm_num
  exact ⟨h8, (statistics_extreme_first_occurrence demoStore 0 Sensor.t1
    demoStats8 h8).2.2⟩
